import Mathlib

/-!
Shallow embedding of the local-state and dependency-provisioning layer of
PWAsForFirefox (the `firefoxpwa` native crate): the profile lifecycle
commands from `src/native/src/console/profile.rs` and the 7-Zip dependency
installer from `src/native/src/components/_7zip.rs`.

Identifiers (ULIDs) are modelled as natural numbers with `0` as the nil
identifier.  `BTreeMap`s are modelled as association lists with map
operations that respect key uniqueness (`insert` replaces, `erase` removes
the key).  Filesystem, registry, network and process effects are modelled
by explicit environment records recording the outcome of each fallible
external call; the embedded functions return an `Except String` mirroring
the `anyhow::Result` of the source, together with a record of the side
effects performed (uninstall calls issued, directory removals, whether the
store was persisted).
-/

/-- ULID identifiers, modelled as naturals; `Ulid.nil` is `Ulid::nil()`. -/
abbrev Ulid := Nat

/-- The reserved nil identifier of the permanent default profile. -/
def Ulid.nil : Ulid := 0

/-- Lookup in an association-list map, mirroring `BTreeMap::get`. -/
def mapLookup {α : Type} : List (Ulid × α) → Ulid → Option α
  | [], _ => none
  | e :: rest, k => if e.1 = k then some e.2 else mapLookup rest k

/-- Removal of a key, mirroring the removal effect of `BTreeMap::remove`. -/
def mapErase {α : Type} : List (Ulid × α) → Ulid → List (Ulid × α)
  | [], _ => []
  | e :: rest, k => if e.1 = k then mapErase rest k else e :: mapErase rest k

/-- Insertion, mirroring `BTreeMap::insert` (replaces an existing entry). -/
def mapInsert {α : Type} (m : List (Ulid × α)) (k : Ulid) (v : α) : List (Ulid × α) :=
  (k, v) :: mapErase m k

/-- Modelled from the spec: the `Site` record (`components/site.rs` is not
among the given sources); only the fields consumed by the profile commands
are carried: `{ id, name, manifest_url, document_url, … }`. -/
structure Site where
  ulid : Ulid
  name : Option String
  manifest_url : String
  document_url : String
deriving Repr, DecidableEq

/-- The `Profile` record: `{ ulid, name, description, sites }` where
`sites` is the ordered set of identifiers of the web apps installed in
this profile. -/
structure Profile where
  ulid : Ulid
  name : Option String
  description : Option String
  sites : List Ulid
deriving Repr, DecidableEq

/-- The `Storage` store: `profiles` and `sites` mappings keyed by ULID. -/
structure Storage where
  profiles : List (Ulid × Profile)
  sites : List (Ulid × Site)
deriving Repr, DecidableEq

/-! ## Association-map lemmas -/

theorem mapLookup_mapErase {α : Type} (m : List (Ulid × α)) (k k' : Ulid) :
    mapLookup (mapErase m k) k' = if k' = k then none else mapLookup m k' := by
  induction m with
  | nil => simp [mapLookup, mapErase]
  | cons e rest ih =>
    by_cases hek : e.1 = k
    · subst hek
      by_cases hk : k' = e.1 <;> simp_all [mapLookup, mapErase, Ne.symm]
    · by_cases hk' : e.1 = k' <;> by_cases hk : k' = k <;>
        simp_all [mapLookup, mapErase]

theorem mapLookup_mapInsert {α : Type} (m : List (Ulid × α)) (k k' : Ulid) (v : α) :
    mapLookup (mapInsert m k v) k' = if k = k' then some v else mapLookup m k' := by
  by_cases hk : k = k'
  · subst hk
    simp [mapLookup, mapInsert]
  · have hk' : ¬k' = k := fun h => hk h.symm
    simp [mapLookup, mapInsert, hk, hk', mapLookup_mapErase]

/-! ## Dependency Installer (`components/_7zip.rs`)

The registry, PATH, network and process environment is supplied as data:
`Option RegKey` is the outcome of opening the vendor uninstall key
(`none` = the `open` call failed), and an `Option String` inside `RegKey`
is the outcome of `get_string` on a value (`none` = the value cannot be
read as a string).  The PATH scan receives the parsed `PATH` variable and
an `isFile` predicate for the candidate executables. -/

/-- Outcome of opening the `...\CurrentVersion\Uninstall\7-Zip` registry
key: each field is the result of `key.get_string` on the named value. -/
structure RegKey where
  displayVersion : Option String
  installLocation : Option String
deriving Repr, DecidableEq

/-- The `_7Zip` dependency descriptor: `version` and `executable`. -/
structure _7Zip where
  version : Option String
  executable : Option String
deriving Repr, DecidableEq

/-- Embedding of `_7Zip::new_from_registry`: on a successfully opened key
both values are read with `?` (a failed read is an error); a failed key
open yields the empty descriptor. -/
def _7Zip.new_from_registry (key : Option RegKey) : Except String _7Zip :=
  match key with
  | some k =>
    match k.displayVersion with
    | none => .error "failed to read DisplayVersion"
    | some display_version =>
      match k.installLocation with
      | none => .error "failed to read InstallLocation"
      | some install_location =>
        .ok { version := some display_version
              executable := some (install_location ++ "\\7z.exe") }
  | none => .ok { version := none, executable := none }

/-- Embedding of the PATH scan inside `_7Zip::new_from_path`: join
`7z.exe` to every directory of `PATH` and take the first that is a file. -/
def findExecutable (pathVar : Option (List String)) (isFile : String → Bool) :
    Option String :=
  pathVar.bind fun paths =>
    (paths.filterMap fun directory =>
      let executable := directory ++ "\\7z.exe"
      if isFile executable then some executable else none).head?

/-- Embedding of `_7Zip::new_from_path` (its `Result` is always `Ok` in
the source, so it is modelled as returning the descriptor directly): a hit
gets the synthetic version `"0.0.0"`, a miss the empty descriptor. -/
def _7Zip.new_from_path (pathVar : Option (List String)) (isFile : String → Bool) :
    _7Zip :=
  match findExecutable pathVar isFile with
  | some exe => { version := some "0.0.0", executable := some exe }
  | none => { version := none, executable := none }

/-- Embedding of `_7Zip::new`: the registry probe result (its error is
wrapped with context and propagated by `?`) is returned when its `version`
is present, otherwise the PATH scan runs. -/
def _7Zip.new (key : Option RegKey) (pathVar : Option (List String))
    (isFile : String → Bool) : Except String _7Zip :=
  match _7Zip.new_from_registry key with
  | .error e => .error ("Failed to search 7-Zip in registry: " ++ e)
  | .ok registry =>
    if registry.version.isSome then .ok registry
    else .ok (_7Zip.new_from_path pathVar isFile)

/-- Side-effect record of `_7Zip::run`: the result together with the list
of processes spawned (`executable`, arguments). -/
structure RunOutcome where
  result : Except String Nat
  launched : List (String × List String)
deriving Repr

/-- Embedding of `_7Zip::run`: bails with the `NotInstalled` message when
no executable was detected, otherwise spawns the process (`exitOf` gives
the exit status of the spawned command). -/
def _7Zip.run (z : _7Zip) (args : List String)
    (exitOf : String → List String → Nat) : RunOutcome :=
  match z.executable with
  | none => { result := .error "7-Zip is currently not installed", launched := [] }
  | some exe => { result := .ok (exitOf exe args), launched := [(exe, args)] }

/-- Outcomes of the external calls made by `_7Zip::install`, in source
order: temporary-file creation, the HTTPS download (`get`), copying the
response body, `keep`-ing the temp file, elevated execution
(`none` = `run_as_admin` failed to launch, `some c` = exit code `c`), and
the final `remove_file`. -/
structure InstallEnv where
  tempfileOk : Bool
  downloadOk : Bool
  copyOk : Bool
  keepOk : Bool
  execResult : Option Nat
  removeOk : Bool
deriving Repr, DecidableEq

/-- Embedding of `_7Zip::install`: each fallible step propagates its
context string with `?`; a non-success exit status bails with the
execution error; the final `remove_file` failure propagates the cleanup
error with `?`. -/
def _7Zip.install (env : InstallEnv) : Except String Unit :=
  if !env.tempfileOk then .error "Failed to create a temporary file"
  else if !env.downloadOk then .error "Failed to download the 7-Zip installer"
  else if !env.copyOk then .error "Failed to download the 7-Zip installer"
  else if !env.keepOk then .error "Failed to download the 7-Zip installer"
  else
    match env.execResult with
    | none => .error "Failed to execute the 7-Zip installer"
    | some code =>
      if code != 0 then .error "Failed to execute the 7-Zip installer"
      else if !env.removeOk then .error "Failed to clean up the 7-Zip installer"
      else .ok ()

/-! ## Profile Lifecycle Manager (`console/profile.rs`)

The commands operate on an already-loaded `Storage` (loading and the
`ProjectDirs` resolution are collaborators).  `storage.write` is modelled
as recording the persisted store in the outcome (`persisted = none` means
the write was never reached).  Filesystem outcomes of the template copy
and the success of each `integrations::uninstall` call are environment
data. -/

/-- Embedding of `apply_profile_template`: with no template it does
nothing; otherwise `create_dir_all` and the `fs_extra` copy each may fail,
with their context propagated by `?`. -/
def applyProfileTemplate (template : Option String) (createDirOk copyOk : Bool) :
    Except String Unit :=
  match template with
  | none => .ok ()
  | some _ =>
    if !createDirOk then .error "Failed to create a profile directory"
    else if !copyOk then .error "Failed to copy a profile template"
    else .ok ()

/-- Embedding of `ProfileListCommand::run`'s inner loop over one profile's
site references: each is resolved against the `sites` map with
`context("Profile with invalid web app")?` (the printing itself is an
output side effect with no bearing on the result). -/
def resolveSites (sites : List (Ulid × Site)) : List Ulid → Except String Unit
  | [] => .ok ()
  | s :: rest =>
    match mapLookup sites s with
    | none => .error "Profile with invalid web app"
    | some _ => resolveSites sites rest

/-- Embedding of `ProfileListCommand::run`'s outer loop over the profiles
of the store. -/
def listProfiles (sites : List (Ulid × Site)) :
    List (Ulid × Profile) → Except String Unit
  | [] => .ok ()
  | e :: rest =>
    match resolveSites sites e.2.sites with
    | .error err => .error err
    | .ok _ => listProfiles sites rest

/-- Embedding of `ProfileListCommand::run` on a loaded store. -/
def profileListRun (storage : Storage) : Except String Unit :=
  listProfiles storage.sites storage.profiles

/-- Model of Rust's `str::trim` (drop leading and trailing whitespace),
written over the character list so that it evaluates inside the kernel. -/
def strTrim (s : String) : String :=
  ⟨((s.data.dropWhile Char.isWhitespace).reverse.dropWhile Char.isWhitespace).reverse⟩

/-- Environment of `ProfileRemoveCommand::run`: the line read from stdin
for the confirmation prompt, and whether `integrations::uninstall`
succeeds for the site with a given identifier. -/
structure RemoveEnv where
  confirmLine : String
  uninstallOk : Ulid → Bool

/-- Side-effect record of `ProfileRemoveCommand::run`: the result, the
final in-memory store, the store passed to `storage.write` (if reached),
the uninstall calls issued in order, and whether the profile data
directory removal was attempted. -/
structure RemoveOutcome where
  result : Except String Unit
  storage : Storage
  persisted : Option Storage
  uninstalls : List Ulid
  dirRemoved : Bool

/-- Embedding of the `for site in &profile.sites` loop of
`ProfileRemoveCommand::run`: per reference, `storage.sites.remove` is
tried; a missing record is skipped (`if let Some`), a present one is
removed and then uninstalled, and an uninstall failure propagates with
`?`, ending the loop.  Returns the remaining `sites` map, the uninstall
calls issued, and whether the loop ran to completion. -/
def removeSites (uninstallOk : Ulid → Bool) :
    List Ulid → List (Ulid × Site) → List (Ulid × Site) × List Ulid × Bool
  | [], sites => (sites, [], true)
  | s :: rest, sites =>
    match mapLookup sites s with
    | none => removeSites uninstallOk rest sites
    | some _ =>
      let sites' := mapErase sites s
      if uninstallOk s then
        let r := removeSites uninstallOk rest sites'
        (r.1, s :: r.2.1, r.2.2)
      else
        (sites', [s], false)

/-- Embedding of `ProfileRemoveCommand::run`: look the profile up
(`NotFound` error otherwise); unless `quiet`, abort with `Ok` when the
trimmed confirmation line is neither `"Y"` nor `"y"`; remove the profile
data directory best-effort; run the site-removal loop; on success, drop
the profile record (or clear its `sites` when it is the nil profile) and
persist; an uninstall failure propagates before anything is persisted. -/
def profileRemoveRun (id : Ulid) (quiet : Bool) (env : RemoveEnv)
    (storage : Storage) : RemoveOutcome :=
  match mapLookup storage.profiles id with
  | none =>
    { result := .error "Profile does not exist", storage := storage
      persisted := none, uninstalls := [], dirRemoved := false }
  | some profile =>
    if !quiet && strTrim env.confirmLine != "Y" && strTrim env.confirmLine != "y" then
      { result := .ok (), storage := storage
        persisted := none, uninstalls := [], dirRemoved := false }
    else
      let r := removeSites env.uninstallOk profile.sites storage.sites
      if r.2.2 then
        let profiles' :=
          if profile.ulid != Ulid.nil then mapErase storage.profiles id
          else mapInsert storage.profiles id { profile with sites := [] }
        let st : Storage := { profiles := profiles', sites := r.1 }
        { result := .ok (), storage := st
          persisted := some st, uninstalls := r.2.1, dirRemoved := true }
      else
        { result := .error "Failed to uninstall system integration"
          storage := { storage with sites := r.1 }
          persisted := none, uninstalls := r.2.1, dirRemoved := true }

/-- Modelled from the spec: the `store_value!` macro of `crate::console`
(not among the given sources) — "field-by-field optional overwrite":
absent input keeps the existing value, present input replaces it. -/
def store_value {α : Type} (current input : Option α) : Option α :=
  match input with
  | some v => some v
  | none => current

/-- Result of `ProfileUpdateCommand::run`: the result and the store passed
to `storage.write` (if reached). -/
structure UpdateOutcome where
  result : Except String Unit
  persisted : Option Storage

/-- Embedding of `ProfileUpdateCommand::run`: look the profile up
(`NotFound` error otherwise), merge `name` and `description` with
`store_value!`, persist, then apply the template (whose failure
propagates after the write). -/
def profileUpdateRun (id : Ulid) (name description template : Option String)
    (createDirOk copyOk : Bool) (storage : Storage) : UpdateOutcome :=
  match mapLookup storage.profiles id with
  | none => { result := .error "Profile does not exist", persisted := none }
  | some profile =>
    let profile' := { profile with
      name := store_value profile.name name
      description := store_value profile.description description }
    let storage' := { storage with profiles := mapInsert storage.profiles id profile' }
    match applyProfileTemplate template createDirOk copyOk with
    | .ok _ => { result := .ok (), persisted := some storage' }
    | .error e => { result := .error e, persisted := some storage' }

/-- Modelled from the spec: `Profile::new` (`components/profile.rs` is not
among the given sources) — a fresh identifier with the given name and
description and an empty site set. -/
def Profile.new (ulid : Ulid) (name description : Option String) : Profile :=
  { ulid := ulid, name := name, description := description, sites := [] }

/-- Result of `ProfileCreateCommand::_run`: the result (the fresh ULID on
success) and the store passed to `storage.write` (if reached). -/
structure CreateOutcome where
  result : Except String Ulid
  persisted : Option Storage

/-- Embedding of `ProfileCreateCommand::_run`: build the new profile with
a fresh ULID, insert it, persist, and only then apply the template (whose
failure propagates after the write). -/
def profileCreateRun (freshUlid : Ulid) (name description template : Option String)
    (createDirOk copyOk : Bool) (storage : Storage) : CreateOutcome :=
  let profile := Profile.new freshUlid name description
  let storage' := { storage with profiles := mapInsert storage.profiles freshUlid profile }
  match applyProfileTemplate template createDirOk copyOk with
  | .ok _ => { result := .ok freshUlid, persisted := some storage' }
  | .error e => { result := .error e, persisted := some storage' }

/-! ## Helper lemmas -/

theorem mapLookup_some_mem {α : Type} {m : List (Ulid × α)} {k : Ulid} {v : α}
    (h : mapLookup m k = some v) : (k, v) ∈ m := by
  induction m with
  | nil => simp [mapLookup] at h
  | cons e rest ih =>
    simp only [mapLookup] at h
    split at h
    · next heq =>
        cases h
        have he : (k, e.2) = e := by rw [← heq]
        rw [he]
        exact List.mem_cons_self _ _
    · exact List.mem_cons_of_mem _ (ih h)

theorem removeSites_sites_none {u : Ulid → Bool} {k : Ulid} :
    ∀ (l : List Ulid) (sites : List (Ulid × Site)), mapLookup sites k = none →
      mapLookup (removeSites u l sites).1 k = none
  | [], _, h => h
  | s :: rest, sites, h => by
    cases hls : mapLookup sites s with
    | none => simpa [removeSites, hls] using removeSites_sites_none rest sites h
    | some v =>
      have herase : mapLookup (mapErase sites s) k = none := by
        rw [mapLookup_mapErase]
        split <;> simp [h]
      cases hu : u s with
      | true =>
        simpa [removeSites, hls, hu] using
          removeSites_sites_none rest (mapErase sites s) herase
      | false => simpa [removeSites, hls, hu] using herase

theorem removeSites_not_called {u : Ulid → Bool} {k : Ulid} :
    ∀ (l : List Ulid) (sites : List (Ulid × Site)), mapLookup sites k = none →
      k ∉ (removeSites u l sites).2.1
  | [], _, _ => by simp [removeSites]
  | s :: rest, sites, h => by
    cases hls : mapLookup sites s with
    | none => simpa [removeSites, hls] using removeSites_not_called rest sites h
    | some v =>
      have hsk : s ≠ k := fun hsk => by rw [hsk, h] at hls; cases hls
      have herase : mapLookup (mapErase sites s) k = none := by
        rw [mapLookup_mapErase]
        split <;> simp [h]
      cases hu : u s with
      | true =>
        have h2 : k ∉ (removeSites u rest (mapErase sites s)).2.1 :=
          removeSites_not_called rest (mapErase sites s) herase
        have hcalls : (removeSites u (s :: rest) sites).2.1 =
            s :: (removeSites u rest (mapErase sites s)).2.1 := by
          simp [removeSites, hls, hu]
        rw [hcalls]
        simp only [List.mem_cons]
        rintro (hk | hk)
        · exact hsk hk.symm
        · exact h2 hk
      | false =>
        have hcalls : (removeSites u (s :: rest) sites).2.1 = [s] := by
          simp [removeSites, hls, hu]
        rw [hcalls]
        simp only [List.mem_singleton]
        exact fun hk => hsk hk.symm

theorem removeSites_ok {u : Ulid → Bool} :
    ∀ (l : List Ulid) (sites : List (Ulid × Site)), (∀ s ∈ l, u s = true) →
      (removeSites u l sites).2.2 = true
  | [], _, _ => rfl
  | s :: rest, sites, h => by
    have hrest : ∀ t ∈ rest, u t = true := fun t ht => h t (List.mem_cons_of_mem _ ht)
    cases hls : mapLookup sites s with
    | none => simpa [removeSites, hls] using removeSites_ok rest sites hrest
    | some v =>
      have hs : u s = true := h s (List.mem_cons_self _ _)
      simpa [removeSites, hls, hs] using
        removeSites_ok rest (mapErase sites s) hrest

theorem removeSites_complete {u : Ulid → Bool} :
    ∀ (l : List Ulid) (sites : List (Ulid × Site)), l.Nodup →
      (∀ s ∈ l, (mapLookup sites s).isSome) → (∀ s ∈ l, u s = true) →
      (removeSites u l sites).2.1 = l ∧
        ∀ s ∈ l, mapLookup (removeSites u l sites).1 s = none
  | [], _, _, _, _ => by simp [removeSites]
  | s :: rest, sites, hnd, hpres, hu => by
    obtain ⟨v, hls⟩ := Option.isSome_iff_exists.mp (hpres s (List.mem_cons_self _ _))
    have hs : u s = true := hu s (List.mem_cons_self _ _)
    have hndr : rest.Nodup := hnd.of_cons
    have hsr : s ∉ rest := by
      intro hmem
      exact (List.nodup_cons.mp hnd).1 hmem
    have hpres' : ∀ t ∈ rest, (mapLookup (mapErase sites s) t).isSome := by
      intro t ht
      rw [mapLookup_mapErase]
      have hts : ¬t = s := fun hts => hsr (hts ▸ ht)
      simp only [hts, if_neg, ite_false]
      exact hpres t (List.mem_cons_of_mem _ ht)
    have hur : ∀ t ∈ rest, u t = true := fun t ht => hu t (List.mem_cons_of_mem _ ht)
    obtain ⟨hcalls, hgone⟩ := removeSites_complete rest (mapErase sites s) hndr hpres' hur
    have hself : mapLookup (mapErase sites s) s = none := by
      rw [mapLookup_mapErase]
      simp
    constructor
    · simp [removeSites, hls, hs, hcalls]
    · intro t ht
      rcases List.mem_cons.mp ht with hts | htr
      · subst hts
        simpa [removeSites, hls, hs] using
          removeSites_sites_none rest (mapErase sites t) hself
      · simpa [removeSites, hls, hs] using hgone t htr

theorem resolveSites_ok_mem {sites : List (Ulid × Site)} :
    ∀ {l : List Ulid}, resolveSites sites l = .ok () →
      ∀ s ∈ l, mapLookup sites s ≠ none
  | [], _, s, hs => by simp at hs
  | s' :: rest, h, s, hs => by
    cases hls : mapLookup sites s' with
    | none => rw [resolveSites, hls] at h; cases h
    | some v =>
      rw [resolveSites, hls] at h
      rcases List.mem_cons.mp hs with hss | hsr
      · subst hss
        simp [hls]
      · exact resolveSites_ok_mem h s hsr

theorem listProfiles_ok_mem {sites : List (Ulid × Site)} :
    ∀ {ps : List (Ulid × Profile)}, listProfiles sites ps = .ok () →
      ∀ e ∈ ps, resolveSites sites e.2.sites = .ok ()
  | [], _, e, he => by simp at he
  | e' :: rest, h, e, he => by
    cases hr : resolveSites sites e'.2.sites with
    | error err => rw [listProfiles, hr] at h; cases h
    | ok u =>
      rw [listProfiles, hr] at h
      rcases List.mem_cons.mp he with hee | her
      · subst hee
        cases u
        exact hr
      · exact listProfiles_ok_mem h e her

theorem remove_guard_false (quiet : Bool) (env : RemoveEnv)
    (hc : quiet = true ∨ strTrim env.confirmLine = "Y" ∨ strTrim env.confirmLine = "y") :
    (!quiet && strTrim env.confirmLine != "Y" && strTrim env.confirmLine != "y") = false := by
  rcases hc with h | h | h <;> simp [h]

/-! ## Claim theorems -/

/-- C4: dependency detection is a strict two-step strategy in which the
first match wins: when the registry probe yields a descriptor with a
version present, that registry-derived descriptor (display version,
install-location-derived executable path) is returned, for every possible
state of the PATH scan (so the PATH scan is never consulted); the PATH
scan is used only when the registry probe yields nothing. -/
theorem detection_registry_precedence (k : RegKey) (dv il : String)
    (pathVar : Option (List String)) (isFile : String → Bool)
    (h1 : k.displayVersion = some dv) (h2 : k.installLocation = some il) :
    _7Zip.new (some k) pathVar isFile =
      .ok { version := some dv, executable := some (il ++ "\\7z.exe") } := by
  simp [_7Zip.new, _7Zip.new_from_registry, h1, h2]

/-- Witness for C4: a concrete registry hit wins over a PATH environment
in which every candidate would also match. -/
theorem detection_registry_precedence_witness :
    _7Zip.new
        (some { displayVersion := some "25.00"
                installLocation := some "C:\\Program Files\\7-Zip" })
        (some ["D:\\tools"]) (fun _ => true) =
      .ok { version := some "25.00"
            executable := some ("C:\\Program Files\\7-Zip" ++ "\\7z.exe") } :=
  detection_registry_precedence _ "25.00" "C:\\Program Files\\7-Zip" _ _ rfl rfl

/-- C5: when neither the registry probe nor the PATH scan finds the tool,
detection succeeds with a descriptor whose version and executable are both
empty; `run` on such a descriptor fails with the `NotInstalled` error and
launches no process; and a tool found via PATH gets a synthetic non-empty
version marker. -/
theorem detection_absent_not_installed (key : Option RegKey)
    (pathVar : Option (List String)) (isFile : String → Bool)
    (args : List String) (exitOf : String → List String → Nat)
    (hreg : key = none) (hpath : findExecutable pathVar isFile = none) :
    _7Zip.new key pathVar isFile = .ok { version := none, executable := none } ∧
    (_7Zip.run { version := none, executable := none } args exitOf).result =
      .error "7-Zip is currently not installed" ∧
    (_7Zip.run { version := none, executable := none } args exitOf).launched = [] ∧
    (∀ pv f exe, findExecutable pv f = some exe →
      ∃ v, (_7Zip.new_from_path pv f).version = some v ∧ v ≠ "") := by
  subst hreg
  refine ⟨?_, rfl, rfl, ?_⟩
  · simp [_7Zip.new, _7Zip.new_from_registry, _7Zip.new_from_path, hpath]
  · intro pv f exe hexe
    exact ⟨"0.0.0", by simp [_7Zip.new_from_path, hexe], by decide⟩

/-- Witness for C5: no registry key, an empty PATH, a concrete `run`
invocation, and a concrete PATH hit for the synthetic-marker clause. -/
theorem detection_absent_not_installed_witness :
    _7Zip.new none (some []) (fun _ => false) =
        .ok { version := none, executable := none } ∧
      (_7Zip.run { version := none, executable := none } ["x"]
          (fun _ _ => 0)).result = .error "7-Zip is currently not installed" ∧
      (_7Zip.run { version := none, executable := none } ["x"]
          (fun _ _ => 0)).launched = [] ∧
      (∀ pv f exe, findExecutable pv f = some exe →
        ∃ v, (_7Zip.new_from_path pv f).version = some v ∧ v ≠ "") :=
  detection_absent_not_installed none (some []) (fun _ => false) ["x"]
    (fun _ _ => 0) rfl rfl

/-- C10: when the vendor uninstall key opens but `DisplayVersion` or
`InstallLocation` cannot be read as a string, detection fails with an
error instead of falling back to the PATH scan; the PATH fallback is
reached exactly when opening the key itself fails, in which case detection
returns the PATH-scan descriptor. -/
theorem registry_value_error_no_fallback (k : RegKey)
    (pathVar : Option (List String)) (isFile : String → Bool)
    (h : k.displayVersion = none ∨ k.installLocation = none) :
    (∃ e, _7Zip.new (some k) pathVar isFile = .error e) ∧
    (∀ pv f, _7Zip.new none pv f = .ok (_7Zip.new_from_path pv f)) := by
  constructor
  · cases hdv : k.displayVersion with
    | none =>
      exact ⟨"Failed to search 7-Zip in registry: failed to read DisplayVersion",
        by simp [_7Zip.new, _7Zip.new_from_registry, hdv]⟩
    | some dv =>
      rcases h with h | h
      · rw [hdv] at h
        cases h
      · exact ⟨"Failed to search 7-Zip in registry: failed to read InstallLocation",
          by simp [_7Zip.new, _7Zip.new_from_registry, hdv, h]⟩
  · intro pv f
    simp [_7Zip.new, _7Zip.new_from_registry]

/-- Witness for C10: a key whose `DisplayVersion` value is unreadable,
with a PATH environment that would otherwise match. -/
theorem registry_value_error_no_fallback_witness :
    (∃ e, _7Zip.new
        (some { displayVersion := none, installLocation := some "C:\\7z" })
        (some ["D:\\tools"]) (fun _ => true) = .error e) ∧
      (∀ pv f, _7Zip.new none pv f = .ok (_7Zip.new_from_path pv f)) :=
  registry_value_error_no_fallback
    { displayVersion := none, installLocation := some "C:\\7z" }
    (some ["D:\\tools"]) (fun _ => true) (Or.inl rfl)

/-- C2 counterexample: with the download and the elevated execution all
succeeding (exit code 0) and only the final temporary-file deletion
failing, `install` returns the cleanup error, not success — refuting the
claim that the install operation as a whole still returns success. -/
theorem install_cleanup_counterexample :
    _7Zip.install { tempfileOk := true, downloadOk := true, copyOk := true,
                    keepOk := true, execResult := some 0, removeOk := false } =
        .error "Failed to clean up the 7-Zip installer" ∧
      _7Zip.install { tempfileOk := true, downloadOk := true, copyOk := true,
                      keepOk := true, execResult := some 0, removeOk := false } ≠
        .ok () :=
  ⟨rfl, fun h => by simp [_7Zip.install] at h⟩

/-- C2 amended: after the downloaded installer has been executed
successfully with elevation, a failure to delete the temporary installer
file is reported as a cleanup error that fails the whole install
operation (the deletion error is propagated, not swallowed). -/
theorem install_cleanup_failure_fatal (env : InstallEnv)
    (h1 : env.tempfileOk = true) (h2 : env.downloadOk = true)
    (h3 : env.copyOk = true) (h4 : env.keepOk = true)
    (h5 : env.execResult = some 0) (h6 : env.removeOk = false) :
    _7Zip.install env = .error "Failed to clean up the 7-Zip installer" := by
  simp [_7Zip.install, h1, h2, h3, h4, h5, h6]

/-- Witness for the amended C2 at a concrete environment. -/
theorem install_cleanup_failure_fatal_witness :
    _7Zip.install { tempfileOk := true, downloadOk := true, copyOk := true,
                    keepOk := true, execResult := some 0, removeOk := false } =
      .error "Failed to clean up the 7-Zip installer" :=
  install_cleanup_failure_fatal _ rfl rfl rfl rfl rfl rfl

/-- Shape of a `ProfileRemoveCommand::run` execution that passes the
profile lookup, the confirmation guard, and whose site-removal loop runs
to completion. -/
theorem profileRemoveRun_success (id : Ulid) (quiet : Bool) (env : RemoveEnv)
    (storage : Storage) (p : Profile)
    (hp : mapLookup storage.profiles id = some p)
    (hc : quiet = true ∨ strTrim env.confirmLine = "Y" ∨ strTrim env.confirmLine = "y")
    (hok : (removeSites env.uninstallOk p.sites storage.sites).2.2 = true) :
    profileRemoveRun id quiet env storage =
      { result := .ok ()
        storage :=
          { profiles :=
              if p.ulid != Ulid.nil then mapErase storage.profiles id
              else mapInsert storage.profiles id { p with sites := [] }
            sites := (removeSites env.uninstallOk p.sites storage.sites).1 }
        persisted := some
          { profiles :=
              if p.ulid != Ulid.nil then mapErase storage.profiles id
              else mapInsert storage.profiles id { p with sites := [] }
            sites := (removeSites env.uninstallOk p.sites storage.sites).1 }
        uninstalls := (removeSites env.uninstallOk p.sites storage.sites).2.1
        dirRemoved := true } := by
  have hguard := remove_guard_false quiet env hc
  simp [profileRemoveRun, hp, hguard, hok]

/-- C6: a profile removal invoked without the quiet override whose trimmed
confirmation answer is neither `"Y"` nor `"y"` completes as a successful
no-op: the store is unchanged, nothing is persisted, no uninstall is
invoked and no data directory is deleted. -/
theorem remove_abort_no_side_effects (id : Ulid) (env : RemoveEnv)
    (storage : Storage) (p : Profile)
    (hp : mapLookup storage.profiles id = some p)
    (hY : strTrim env.confirmLine ≠ "Y") (hy : strTrim env.confirmLine ≠ "y") :
    profileRemoveRun id false env storage =
      { result := .ok (), storage := storage, persisted := none,
        uninstalls := [], dirRemoved := false } := by
  simp [profileRemoveRun, hp, hY, hy]

/-- Witness for C6: answering `"n"` to the prompt leaves a one-profile,
one-site store untouched. -/
theorem remove_abort_no_side_effects_witness :
    profileRemoveRun 1 false { confirmLine := "n", uninstallOk := fun _ => true }
        { profiles := [(1, { ulid := 1, name := some "P", description := none,
                             sites := [10] })]
          sites := [(10, { ulid := 10, name := some "A",
                           manifest_url := "https://a/m", document_url := "https://a/" })] } =
      { result := .ok ()
        storage :=
          { profiles := [(1, { ulid := 1, name := some "P", description := none,
                               sites := [10] })]
            sites := [(10, { ulid := 10, name := some "A",
                             manifest_url := "https://a/m", document_url := "https://a/" })] }
        persisted := none, uninstalls := [], dirRemoved := false } :=
  remove_abort_no_side_effects 1 _ _ _ rfl (by decide) (by decide)

/-- C3: a completed removal of the nil profile keeps its record with an
empty site set, a completed removal of a non-nil profile deletes the
record, and the nil profile (if present before) is still present after. -/
theorem remove_nil_retained_nonnil_removed (id : Ulid) (quiet : Bool)
    (env : RemoveEnv) (storage : Storage) (p : Profile)
    (hp : mapLookup storage.profiles id = some p) (hid : p.ulid = id)
    (hc : quiet = true ∨ strTrim env.confirmLine = "Y" ∨ strTrim env.confirmLine = "y")
    (hu : ∀ s ∈ p.sites, env.uninstallOk s = true) :
    (id = Ulid.nil →
      mapLookup (profileRemoveRun id quiet env storage).storage.profiles Ulid.nil =
        some { p with sites := [] }) ∧
    (id ≠ Ulid.nil →
      mapLookup (profileRemoveRun id quiet env storage).storage.profiles id = none) ∧
    ((mapLookup storage.profiles Ulid.nil).isSome →
      (mapLookup (profileRemoveRun id quiet env storage).storage.profiles Ulid.nil).isSome) := by
  have hok := removeSites_ok p.sites storage.sites hu
  rw [profileRemoveRun_success id quiet env storage p hp hc hok]
  refine ⟨?_, ?_, ?_⟩
  · intro hnil
    subst hnil
    have hb : (p.ulid != Ulid.nil) = false := by simp [hid]
    simp only [hb, Bool.false_eq_true, if_neg, ite_false]
    rw [mapLookup_mapInsert]
    simp
  · intro hnn
    have hb : (p.ulid != Ulid.nil) = true := by simp [hid, hnn]
    simp only [hb, if_pos, ite_true]
    rw [mapLookup_mapErase]
    simp
  · intro hsome
    by_cases hnil : id = Ulid.nil
    · subst hnil
      have hb : (p.ulid != Ulid.nil) = false := by simp [hid]
      simp only [hb, Bool.false_eq_true, if_neg, ite_false]
      rw [mapLookup_mapInsert]
      simp
    · have hb : (p.ulid != Ulid.nil) = true := by simp [hid, hnil]
      have hne : ¬Ulid.nil = id := fun h => hnil h.symm
      simp only [hb, if_pos, ite_true]
      rw [mapLookup_mapErase]
      simpa [hne] using hsome

/-- Witness for C3 at a concrete store holding the nil profile and a
non-nil profile `1`: removing profile `1` deletes its record and keeps the
nil profile. -/
theorem remove_nil_retained_nonnil_removed_witness :
    (1 = Ulid.nil →
      mapLookup (profileRemoveRun 1 true
          { confirmLine := "", uninstallOk := fun _ => true }
          { profiles := [(0, { ulid := 0, name := none, description := none, sites := [] }),
                         (1, { ulid := 1, name := some "P", description := none, sites := [10] })]
            sites := [(10, { ulid := 10, name := some "A",
                             manifest_url := "https://a/m", document_url := "https://a/" })] }).storage.profiles
          Ulid.nil =
        some { ulid := 1, name := some "P", description := none, sites := [] }) ∧
    (1 ≠ Ulid.nil →
      mapLookup (profileRemoveRun 1 true
          { confirmLine := "", uninstallOk := fun _ => true }
          { profiles := [(0, { ulid := 0, name := none, description := none, sites := [] }),
                         (1, { ulid := 1, name := some "P", description := none, sites := [10] })]
            sites := [(10, { ulid := 10, name := some "A",
                             manifest_url := "https://a/m", document_url := "https://a/" })] }).storage.profiles
          1 = none) ∧
    ((mapLookup
        ({ profiles := [(0, { ulid := 0, name := none, description := none, sites := [] }),
                        (1, { ulid := 1, name := some "P", description := none, sites := [10] })]
           sites := [(10, { ulid := 10, name := some "A",
                            manifest_url := "https://a/m", document_url := "https://a/" })] } : Storage).profiles
        Ulid.nil).isSome →
      (mapLookup (profileRemoveRun 1 true
          { confirmLine := "", uninstallOk := fun _ => true }
          { profiles := [(0, { ulid := 0, name := none, description := none, sites := [] }),
                         (1, { ulid := 1, name := some "P", description := none, sites := [10] })]
            sites := [(10, { ulid := 10, name := some "A",
                             manifest_url := "https://a/m", document_url := "https://a/" })] }).storage.profiles
          Ulid.nil).isSome) :=
  remove_nil_retained_nonnil_removed 1 true _ _
    { ulid := 1, name := some "P", description := none, sites := [10] }
    rfl rfl (Or.inl rfl) (by decide)

/-- Concrete store for the C1 counterexample: profile `1` references the
two sites `10` and `11`, both present in the `sites` mapping. -/
def cascadeStore : Storage :=
  { profiles := [(1, { ulid := 1, name := some "P", description := none,
                       sites := [10, 11] })]
    sites := [(10, { ulid := 10, name := some "A",
                     manifest_url := "https://a/m", document_url := "https://a/" }),
              (11, { ulid := 11, name := some "B",
                     manifest_url := "https://b/m", document_url := "https://b/" })] }

/-- Environment for the C1 counterexample: the uninstall call for site
`10` fails, every other one succeeds. -/
def cascadeEnv : RemoveEnv :=
  { confirmLine := "", uninstallOk := fun s => s != 10 }

/-- C1 counterexample: removing profile `1` of `cascadeStore` (quiet, so
confirmation is satisfied) with the uninstall call for site `10` failing
issues only one uninstall call instead of one per referenced site, leaves
site `11` present in the `sites` mapping, and aborts with the uninstall
error — refuting the claim that a failing uninstall does not prevent the
remaining sites from being removed and torn down. -/
theorem remove_cascade_counterexample :
    (profileRemoveRun 1 true cascadeEnv cascadeStore).uninstalls = [10] ∧
    mapLookup (profileRemoveRun 1 true cascadeEnv cascadeStore).storage.sites 11 =
      some { ulid := 11, name := some "B",
             manifest_url := "https://b/m", document_url := "https://b/" } ∧
    (profileRemoveRun 1 true cascadeEnv cascadeStore).result =
      .error "Failed to uninstall system integration" ∧
    (profileRemoveRun 1 true cascadeEnv cascadeStore).persisted = none :=
  ⟨rfl, rfl, rfl, rfl⟩

/-- C1 amended: for every profile removed (with confirmation satisfied)
whose referenced sites are pairwise distinct and all present in the
`sites` mapping, if every uninstall call succeeds then exactly one
uninstall call per referenced site is issued (in order) and afterwards all
referenced site records are absent from the `sites` mapping; a failing
uninstall call instead aborts the operation with an error. -/
theorem remove_cascade_when_uninstalls_succeed (id : Ulid) (quiet : Bool)
    (env : RemoveEnv) (storage : Storage) (p : Profile)
    (hp : mapLookup storage.profiles id = some p)
    (hc : quiet = true ∨ strTrim env.confirmLine = "Y" ∨ strTrim env.confirmLine = "y")
    (hnd : p.sites.Nodup)
    (hpres : ∀ s ∈ p.sites, (mapLookup storage.sites s).isSome)
    (hu : ∀ s ∈ p.sites, env.uninstallOk s = true) :
    (profileRemoveRun id quiet env storage).uninstalls = p.sites ∧
    (∀ s ∈ p.sites,
      mapLookup (profileRemoveRun id quiet env storage).storage.sites s = none) ∧
    (profileRemoveRun id quiet env storage).result = .ok () := by
  have hok := removeSites_ok p.sites storage.sites hu
  obtain ⟨hcalls, hgone⟩ := removeSites_complete p.sites storage.sites hnd hpres hu
  rw [profileRemoveRun_success id quiet env storage p hp hc hok]
  exact ⟨hcalls, hgone, rfl⟩

/-- Witness for the amended C1: with both uninstall calls succeeding on
the same store as the counterexample, both sites are uninstalled exactly
once and are absent afterwards. -/
theorem remove_cascade_when_uninstalls_succeed_witness :
    (profileRemoveRun 1 true { confirmLine := "", uninstallOk := fun _ => true }
        cascadeStore).uninstalls = [10, 11] ∧
      (∀ s ∈ [10, 11],
        mapLookup (profileRemoveRun 1 true
            { confirmLine := "", uninstallOk := fun _ => true }
            cascadeStore).storage.sites s = none) ∧
      (profileRemoveRun 1 true { confirmLine := "", uninstallOk := fun _ => true }
        cascadeStore).result = .ok () :=
  remove_cascade_when_uninstalls_succeed 1 true _ _
    { ulid := 1, name := some "P", description := none, sites := [10, 11] }
    rfl (Or.inl rfl) (by decide) (by decide) (by decide)

/-- C9: during a removal whose other uninstall calls all succeed, a site
identifier referenced by the profile but absent from the `sites` mapping
is silently skipped — the removal still succeeds and no uninstall call is
made for it — while `ProfileListCommand::run` on the same store fails with
the referential-integrity error. -/
theorem remove_dangling_skipped_list_fails (id s : Ulid) (quiet : Bool)
    (env : RemoveEnv) (storage : Storage) (p : Profile)
    (hp : mapLookup storage.profiles id = some p)
    (hc : quiet = true ∨ strTrim env.confirmLine = "Y" ∨ strTrim env.confirmLine = "y")
    (hs : s ∈ p.sites)
    (hdangling : mapLookup storage.sites s = none)
    (hu : ∀ t ∈ p.sites, env.uninstallOk t = true) :
    (profileRemoveRun id quiet env storage).result = .ok () ∧
    s ∉ (profileRemoveRun id quiet env storage).uninstalls ∧
    (∃ e, profileListRun storage = .error e) := by
  have hok := removeSites_ok p.sites storage.sites hu
  rw [profileRemoveRun_success id quiet env storage p hp hc hok]
  refine ⟨rfl, ?_, ?_⟩
  · show s ∉ (removeSites env.uninstallOk p.sites storage.sites).2.1
    exact removeSites_not_called p.sites storage.sites hdangling
  · cases hl : profileListRun storage with
    | error e => exact ⟨e, rfl⟩
    | ok u =>
      exfalso
      cases u
      have hmem : (id, p) ∈ storage.profiles := mapLookup_some_mem hp
      have hres := listProfiles_ok_mem hl (id, p) hmem
      exact resolveSites_ok_mem hres s hs hdangling

/-- Witness for C9: profile `1` references site `5`, which has no record
in the store; quiet removal succeeds without uninstalling `5`, and the
list command fails. -/
theorem remove_dangling_skipped_list_fails_witness :
    (profileRemoveRun 1 true { confirmLine := "", uninstallOk := fun _ => true }
        { profiles := [(1, { ulid := 1, name := some "P", description := none,
                             sites := [5] })]
          sites := [] }).result = .ok () ∧
      5 ∉ (profileRemoveRun 1 true { confirmLine := "", uninstallOk := fun _ => true }
        { profiles := [(1, { ulid := 1, name := some "P", description := none,
                             sites := [5] })]
          sites := [] }).uninstalls ∧
      (∃ e, profileListRun
        { profiles := [(1, { ulid := 1, name := some "P", description := none,
                             sites := [5] })]
          sites := [] } = .error e) :=
  remove_dangling_skipped_list_fails 1 5 true _ _
    { ulid := 1, name := some "P", description := none, sites := [5] }
    rfl (Or.inl rfl) (by decide) rfl (by decide)


/-- Profile `1` of the C7 witness store, before the update. -/
def updOld : Profile :=
  { ulid := 1, name := some "Old", description := some "D", sites := [10] }

/-- A second profile in the C7 witness store, untouched by the update. -/
def updOther : Profile :=
  { ulid := 2, name := some "Q", description := none, sites := [] }

/-- The site record of the C7 witness store. -/
def updSite : Site :=
  { ulid := 10, name := some "A",
    manifest_url := "https://a/m", document_url := "https://a/" }

/-- The C7 witness store: two profiles and one site. -/
def updStore : Storage :=
  { profiles := [(1, updOld), (2, updOther)], sites := [(10, updSite)] }

/-- C7: updating an existing profile with only `name` supplied succeeds,
persists a store in which that profile keeps its `description` and
`sites`, every other profile is unchanged and the `sites` mapping is
unchanged; updating with no fields supplied succeeds and persists a store
whose every lookup agrees with the original. -/
theorem update_merge_frame (id : Ulid) (n : Option String) (cd cp : Bool)
    (storage : Storage) (p : Profile)
    (hp : mapLookup storage.profiles id = some p) :
    (profileUpdateRun id n none none cd cp storage).result = .ok () ∧
    (profileUpdateRun id n none none cd cp storage).persisted =
      some (Storage.mk
        (mapInsert storage.profiles id { p with name := store_value p.name n })
        storage.sites) ∧
    ({ p with name := store_value p.name n }).description = p.description ∧
    ({ p with name := store_value p.name n }).sites = p.sites ∧
    (∀ k, k ≠ id →
      mapLookup (mapInsert storage.profiles id { p with name := store_value p.name n }) k =
        mapLookup storage.profiles k) ∧
    (profileUpdateRun id none none none cd cp storage).result = .ok () ∧
    (profileUpdateRun id none none none cd cp storage).persisted =
      some (Storage.mk (mapInsert storage.profiles id p) storage.sites) ∧
    (∀ k, mapLookup (mapInsert storage.profiles id p) k =
      mapLookup storage.profiles k) := by
  refine ⟨?_, ?_, rfl, rfl, ?_, ?_, ?_, ?_⟩
  · simp [profileUpdateRun, hp, applyProfileTemplate]
  · simp [profileUpdateRun, hp, applyProfileTemplate, store_value]
  · intro k hk
    rw [mapLookup_mapInsert]
    exact if_neg fun h => hk h.symm
  · simp [profileUpdateRun, hp, applyProfileTemplate]
  · simp [profileUpdateRun, hp, applyProfileTemplate, store_value]
  · intro k
    rw [mapLookup_mapInsert]
    by_cases h : id = k
    · subst h
      simp [hp]
    · simp [h]

/-- Witness for C7 on a two-profile store, updating profile `1` with a
new name. -/
theorem update_merge_frame_witness :
    (profileUpdateRun 1 (some "New") none none true true updStore).result = .ok () ∧
      (profileUpdateRun 1 (some "New") none none true true updStore).persisted =
        some (Storage.mk
          (mapInsert updStore.profiles 1 { updOld with name := store_value updOld.name (some "New") })
          updStore.sites) ∧
      ({ updOld with name := store_value updOld.name (some "New") }).description =
        updOld.description ∧
      ({ updOld with name := store_value updOld.name (some "New") }).sites =
        updOld.sites ∧
      (∀ k, k ≠ 1 →
        mapLookup (mapInsert updStore.profiles 1
            { updOld with name := store_value updOld.name (some "New") }) k =
          mapLookup updStore.profiles k) ∧
      (profileUpdateRun 1 none none none true true updStore).result = .ok () ∧
      (profileUpdateRun 1 none none none true true updStore).persisted =
        some (Storage.mk (mapInsert updStore.profiles 1 updOld) updStore.sites) ∧
      (∀ k, mapLookup (mapInsert updStore.profiles 1 updOld) k =
        mapLookup updStore.profiles k) :=
  update_merge_frame 1 (some "New") true true updStore updOld rfl

/-- C8: `Create` invoked with a template whose copy fails still reports
the failure while the new profile record has already been inserted into
the persisted store — the persisted store of the failing run contains the
fresh profile, which is not rolled back. -/
theorem create_persists_before_failed_template (freshUlid : Ulid)
    (name description : Option String) (t : String) (cd cp : Bool)
    (storage : Storage) (hfail : cd = false ∨ cp = false) :
    (∃ e, (profileCreateRun freshUlid name description (some t) cd cp storage).result =
      .error e) ∧
    (profileCreateRun freshUlid name description (some t) cd cp storage).persisted =
      some (Storage.mk
        (mapInsert storage.profiles freshUlid (Profile.new freshUlid name description))
        storage.sites) ∧
    mapLookup (mapInsert storage.profiles freshUlid (Profile.new freshUlid name description))
      freshUlid = some (Profile.new freshUlid name description) := by
  have happ : ∃ e, applyProfileTemplate (some t) cd cp = .error e := by
    cases hcd : cd with
    | false => exact ⟨"Failed to create a profile directory", rfl⟩
    | true =>
      rcases hfail with h | h
      · rw [hcd] at h
        cases h
      · subst h
        exact ⟨"Failed to copy a profile template", rfl⟩
  obtain ⟨e, he⟩ := happ
  refine ⟨⟨e, ?_⟩, ?_, ?_⟩
  · simp [profileCreateRun, he]
  · simp [profileCreateRun, he]
  · rw [mapLookup_mapInsert]
    simp

/-- Witness for C8: creating profile `3` over an empty store with a
template whose copy fails. -/
theorem create_persists_before_failed_template_witness :
    (∃ e, (profileCreateRun 3 (some "Work") none (some "tpl") true false
        (Storage.mk [] [])).result = .error e) ∧
      (profileCreateRun 3 (some "Work") none (some "tpl") true false
        (Storage.mk [] [])).persisted =
        some (Storage.mk (mapInsert [] 3 (Profile.new 3 (some "Work") none)) []) ∧
      mapLookup (mapInsert [] 3 (Profile.new 3 (some "Work") none)) 3 =
        some (Profile.new 3 (some "Work") none) :=
  create_persists_before_failed_template 3 (some "Work") none "tpl" true false
    (Storage.mk [] []) (Or.inr rfl)
